import Mathlib

/-!
Verification of the bearister_server quota/subscription engine.

The definitions below are a shallow embedding of the TypeScript source:

* `src/routes/index.ts` contains two revisions of the router.  The earlier
  revision (the `:id`-keyed endpoints) uses the plan-limit table with the
  `-1` unlimited sentinel for PRO (`PLAN_LIMITS`); the later revision (the
  `:oauthId`-keyed endpoints) uses finite ceilings (`PLAN_LIMITS_V2`).
* `src/middleware/clerkAuthenticate.ts` is the authentication middleware.
* The webhook handler (`handleUserWebhook` and its `handleUserCreated` /
  `handleUserUpdated` / `handleUserDeleted` helpers) is embedded together
  with the Prisma `User` model's uniqueness constraints
  (`@unique` on `email` and `oauthId`, `@id` on `id`).

Machine integers are modelled as `Int` (Prisma `Int` fields), timestamps as
milliseconds since the epoch (`TimeMs`), and the database as a list of user
records.  Fallible handler paths return `Except`.
-/

/-- Prisma enum `PlanType`. -/
inductive PlanType
  | BASIC
  | CORE
  | ADVANCED
  | PRO
  deriving DecidableEq, Repr

/-- Prisma enum `SubscriptionStatus`. -/
inductive SubscriptionStatus
  | ACTIVE
  | CANCELED
  | PAST_DUE
  | INCOMPLETE
  | INCOMPLETE_EXPIRED
  | TRIALING
  | UNPAID
  deriving DecidableEq, Repr

/-- One row of the plan-limit configuration table. -/
structure PlanLimits where
  messages : Int
  documents : Int
  deriving DecidableEq, Repr

/-- `PLAN_LIMITS` from the earlier revision of `routes/index.ts`
(lines 126-131): `-1` means unlimited. -/
def PLAN_LIMITS : PlanType → PlanLimits
  | .BASIC => ⟨20, 0⟩
  | .CORE => ⟨100, 10⟩
  | .ADVANCED => ⟨500, 50⟩
  | .PRO => ⟨-1, -1⟩

/-- `PLAN_LIMITS` from the later revision of `routes/index.ts`
(lines 739-744): finite ceilings for the top tiers. -/
def PLAN_LIMITS_V2 : PlanType → PlanLimits
  | .BASIC => ⟨20, 0⟩
  | .CORE => ⟨100, 10⟩
  | .ADVANCED => ⟨700, 50⟩
  | .PRO => ⟨1500, 400⟩

/-- Timestamps, as milliseconds since the Unix epoch (JS `Date.getTime()`). -/
abbrev TimeMs := Int

/-- The persisted `User` record (Prisma `model User`).  The system-managed
audit timestamps `createdAt` / `updatedAt` are not part of the model: no
claim mentions them and every Prisma write touches `updatedAt`. -/
structure User where
  id : String
  email : String
  oauthId : String
  username : Option String
  subscriptioStartDate : Option TimeMs
  subscriptionEndDate : Option TimeMs
  subscriptionStatus : SubscriptionStatus
  planType : PlanType
  messagesUsed : Int
  documentsUsed : Int
  messageLeft : Int
  documentLeft : Int
  deriving DecidableEq, Repr

/-- The database: the stored `User` rows. -/
abbrev Store := List User

/-- An error envelope: HTTP status plus message, as produced by `sendError`. -/
structure ErrorResp where
  status : Nat
  message : String
  deriving DecidableEq, Repr

/-! ## Authentication middleware (`src/middleware/clerkAuthenticate.ts`) -/

/-- Outcome of `clerkClient.verifyToken`: either the promise resolves or it
rejects.  The middleware is modelled as parametric in this outcome. -/
inductive VerifyOutcome
  | resolved
  | rejected
  deriving DecidableEq, Repr

/-- What an Express middleware can do with a request. -/
inductive MwAction
  | callNext
  | respond (status : Nat)
  deriving DecidableEq, Repr

/-- `req.headers.authorization?.split(' ')[1]`, with the `|| ''` fallback that
the call `clerkClient.verifyToken(sessionToken || '')` applies. -/
def sessionTokenOf (authorization : Option String) : String :=
  match authorization with
  | none => ""
  | some h => ((h.splitOn " ").get? 1).getD ""

/-- `clerkAuthenticate` (middleware/clerkAuthenticate.ts lines 10-24):
extracts the bearer token, calls `verifyToken` on it, and calls `next()`
both on the success path and in the `catch` block. -/
def clerkAuthenticate (authorization : Option String)
    (verifyToken : String → VerifyOutcome) : MwAction :=
  match verifyToken (sessionTokenOf authorization) with
  | .resolved => .callNext
  | .rejected => .callNext

/-! ## Usage consumption (`PATCH /api/v1/users/:id/usage`, lines 557-618) -/

/-- The request body's `type` field: `'message'` or `'document'`. -/
inductive UsageType
  | message
  | document
  deriving DecidableEq, Repr

/-- The string the route interpolates into its error message. -/
def UsageType.str : UsageType → String
  | .message => "message"
  | .document => "document"

/-- `type === 'message' ? user.messageLeft : user.documentLeft`. -/
def leftOf (t : UsageType) (u : User) : Int :=
  match t with
  | .message => u.messageLeft
  | .document => u.documentLeft

/-- The `PATCH /api/v1/users/:id/usage` handler (earlier revision,
lines 557-618), for an existing user: rejects non-positive amounts, rejects
with 403 when the relevant left-counter is finite and below `amount`, and
otherwise increments the used-counter and (when finite) decrements the
left-counter. -/
def consumeUsage (u : User) (t : UsageType) (amount : Int) :
    Except ErrorResp User :=
  if amount < 1 then
    .error ⟨400, "Amount must be positive"⟩
  else if leftOf t u ≠ -1 ∧ leftOf t u < amount then
    .error ⟨403, "Insufficient " ++ t.str ++ " quota remaining"⟩
  else
    match t with
    | .message =>
        .ok { u with
          messagesUsed := u.messagesUsed + amount
          messageLeft :=
            if u.messageLeft ≠ -1 then u.messageLeft - amount
            else u.messageLeft }
    | .document =>
        .ok { u with
          documentsUsed := u.documentsUsed + amount
          documentLeft :=
            if u.documentLeft ≠ -1 then u.documentLeft - amount
            else u.documentLeft }

/-! ## Theorems for claims C1 and C3 -/

/-- Claim C1: for a user whose relevant left-counter is a finite value `L`
(not the `-1` sentinel) and a requested amount `a ≥ 1`, the usage-consume
operation succeeds exactly when `a ≤ L`: it then adds `a` to the
used-counter and sets the left-counter to `L - a`, leaving the opposite
resource untouched; when `a > L` it fails with status 403 (QuotaExceeded)
and, being an `Except.error`, performs no write to the store.  Both
resource kinds are covered via `t : UsageType`. -/
theorem consumeUsage_quota_spec (u : User) (t : UsageType) (a L : Int)
    (hL : leftOf t u = L) (hfin : L ≠ -1) (ha : 1 ≤ a) :
    (a ≤ L →
      consumeUsage u t a =
        (match t with
         | .message =>
             .ok { u with messagesUsed := u.messagesUsed + a,
                          messageLeft := L - a }
         | .document =>
             .ok { u with documentsUsed := u.documentsUsed + a,
                          documentLeft := L - a })) ∧
    (L < a →
      consumeUsage u t a =
        .error ⟨403, "Insufficient " ++ t.str ++ " quota remaining"⟩) := by
  constructor
  · intro hle
    have hnot : ¬ a < 1 := by omega
    have hnotq : ¬ (leftOf t u ≠ -1 ∧ leftOf t u < a) := by
      rw [hL]; omega
    cases t with
    | message =>
        simp only [consumeUsage, if_neg hnot, if_neg hnotq]
        have hml : u.messageLeft = L := hL
        simp [hml, hfin]
    | document =>
        simp only [consumeUsage, if_neg hnot, if_neg hnotq]
        have hdl : u.documentLeft = L := hL
        simp [hdl, hfin]
  · intro hgt
    have hnot : ¬ a < 1 := by omega
    have hq : leftOf t u ≠ -1 ∧ leftOf t u < a := by rw [hL]; exact ⟨hfin, hgt⟩
    simp only [consumeUsage, if_neg hnot, if_pos hq]

/-- Concrete user used by several witnesses: a CORE user with part of the
quota already consumed. -/
def coreUser : User :=
  { id := "u-1", email := "a@b.com", oauthId := "oauth-1",
    username := some "a", subscriptioStartDate := none,
    subscriptionEndDate := none, subscriptionStatus := .ACTIVE,
    planType := .CORE, messagesUsed := 95, documentsUsed := 0,
    messageLeft := 5, documentLeft := 10 }

/-- Witness for C1: with `messageLeft = 5`, consuming 2 messages succeeds
with `messagesUsed = 97`, `messageLeft = 3`, and consuming 7 fails 403. -/
theorem consumeUsage_quota_spec_witness :
    consumeUsage coreUser .message 2 =
      .ok { coreUser with messagesUsed := 97, messageLeft := 3 } ∧
    consumeUsage coreUser .message 7 =
      .error ⟨403, "Insufficient message quota remaining"⟩ := by
  refine ⟨?_, ?_⟩
  · have h := (consumeUsage_quota_spec coreUser .message 2 5 rfl
      (by decide) (by decide)).1 (by decide)
    simpa [coreUser] using h
  · exact (consumeUsage_quota_spec coreUser .message 7 5 rfl
      (by decide) (by decide)).2 (by decide)

/-- Claim C3: the authentication middleware always calls `next()` — for
every Authorization header (absent, malformed or well-formed) and every
token-verification outcome the downstream handler is invoked, so the
response cannot depend on the verification result (fail-open). -/
theorem clerkAuthenticate_fail_open
    (authorization : Option String) (verifyToken : String → VerifyOutcome) :
    clerkAuthenticate authorization verifyToken = .callNext := by
  unfold clerkAuthenticate
  cases verifyToken (sessionTokenOf authorization) <;> rfl

/-! ## Plan-change paths of the two user-update endpoints

The earlier revision's `PATCH /api/v1/users/:id` handler (lines 437-498)
passes any request body through to `prisma.user.update`; when the body's
`planType` differs from the stored one it additionally resets the quota
fields from `PLAN_LIMITS` (lines 476-482) — it never touches the
subscription fields.  The later revision's `PATCH /api/v1/users/:oauthId`
handler (lines 1078-1245) destructures `planType` out of the body; on a
real plan change it resets quota from `PLAN_LIMITS_V2` and performs the
subscription transition (lines 1128-1163), while an equal-plan request
leaves `updateData` empty and is rejected with 400 (lines 1214-1218).
Both are modelled for a request body containing exactly `planType`. -/

/-- `PATCH /api/v1/users/:id` with body `{planType}` (earlier revision):
on a differing plan the quota fields are reset per `PLAN_LIMITS`; either
way `prisma.user.update` runs and the handler answers success. -/
def patchUserByIdPlan (u : User) (newPlan : PlanType) :
    Except ErrorResp User :=
  if newPlan ≠ u.planType then
    .ok { u with
      planType := newPlan
      messageLeft := (PLAN_LIMITS newPlan).messages
      documentLeft := (PLAN_LIMITS newPlan).documents
      messagesUsed := 0
      documentsUsed := 0 }
  else
    .ok { u with planType := newPlan }

/-- `PATCH /api/v1/users/:oauthId` with body `{planType}` (later revision):
on a differing plan, quota is reset per `PLAN_LIMITS_V2` and the
subscription transition runs — paid tiers get ACTIVE with a start date of
`now` and an end date one calendar month later (`addOneMonth`, the JS
`setMonth(getMonth() + 1)` arithmetic, kept abstract); BASIC gets CANCELED
with both dates cleared.  An equal plan leaves `updateData` empty, so the
handler rejects with 400 `No valid updates provided`. -/
def patchUserByOauthPlan (addOneMonth : TimeMs → TimeMs) (now : TimeMs)
    (u : User) (newPlan : PlanType) : Except ErrorResp User :=
  if newPlan ≠ u.planType then
    let limits := PLAN_LIMITS_V2 newPlan
    let base := { u with
      planType := newPlan
      messageLeft := limits.messages
      documentLeft := limits.documents
      messagesUsed := 0
      documentsUsed := 0 }
    if newPlan = .CORE ∨ newPlan = .ADVANCED ∨ newPlan = .PRO then
      .ok { base with
        subscriptioStartDate := some now
        subscriptionEndDate := some (addOneMonth now)
        subscriptionStatus := .ACTIVE }
    else if newPlan = .BASIC then
      .ok { base with
        subscriptionStatus := .CANCELED
        subscriptionEndDate := none
        subscriptioStartDate := none }
    else
      .ok base
  else
    .error ⟨400, "No valid updates provided"⟩

/-- Concrete BASIC user for the C2 and C8 counterexamples. -/
def basicUser : User :=
  { id := "u-2", email := "c@d.com", oauthId := "oauth-2",
    username := none, subscriptioStartDate := none,
    subscriptionEndDate := none, subscriptionStatus := .UNPAID,
    planType := .BASIC, messagesUsed := 3, documentsUsed := 0,
    messageLeft := 17, documentLeft := 0 }

/-- Counterexample for C2: upgrading `basicUser` to the paid tier CORE
through the `PATCH /api/v1/users/:id` endpoint resets the quota but leaves
`subscriptionStatus` at UNPAID and both subscription dates null — it does
not set ACTIVE or any dates, contrary to the claim's "additionally"
clause. -/
theorem patchUserByIdPlan_no_subscription_cex :
    patchUserByIdPlan basicUser .CORE =
      .ok { id := "u-2", email := "c@d.com", oauthId := "oauth-2",
            username := none, subscriptioStartDate := none,
            subscriptionEndDate := none, subscriptionStatus := .UNPAID,
            planType := .CORE, messagesUsed := 0, documentsUsed := 0,
            messageLeft := 100, documentLeft := 10 } ∧
    SubscriptionStatus.UNPAID ≠ SubscriptionStatus.ACTIVE := by
  exact ⟨rfl, by decide⟩

/-- Claim C2 (amended): a plan change to a different plan `P` resets
`messagesUsed`/`documentsUsed` to 0 and the left-counters to the handler's
plan-table ceilings on both update endpoints; the subscription transition
(ACTIVE with start `now` and end `now + 1 month` for paid tiers, CANCELED
with null dates for BASIC) happens only on the `:oauthId` endpoint, while
the `:id` endpoint leaves subscription status and both dates unchanged. -/
theorem planChange_resets_and_transitions
    (addOneMonth : TimeMs → TimeMs) (now : TimeMs) (u v : User)
    (P Q : PlanType) (hP : P ≠ u.planType) (hQ : Q ≠ v.planType) :
    (∃ u', patchUserByOauthPlan addOneMonth now u P = .ok u' ∧
      u'.planType = P ∧
      u'.messagesUsed = 0 ∧ u'.documentsUsed = 0 ∧
      u'.messageLeft = (PLAN_LIMITS_V2 P).messages ∧
      u'.documentLeft = (PLAN_LIMITS_V2 P).documents ∧
      ((P = .CORE ∨ P = .ADVANCED ∨ P = .PRO) →
        u'.subscriptionStatus = .ACTIVE ∧
        u'.subscriptioStartDate = some now ∧
        u'.subscriptionEndDate = some (addOneMonth now)) ∧
      (P = .BASIC →
        u'.subscriptionStatus = .CANCELED ∧
        u'.subscriptioStartDate = none ∧
        u'.subscriptionEndDate = none)) ∧
    (∃ v', patchUserByIdPlan v Q = .ok v' ∧
      v'.planType = Q ∧
      v'.messagesUsed = 0 ∧ v'.documentsUsed = 0 ∧
      v'.messageLeft = (PLAN_LIMITS Q).messages ∧
      v'.documentLeft = (PLAN_LIMITS Q).documents ∧
      v'.subscriptionStatus = v.subscriptionStatus ∧
      v'.subscriptioStartDate = v.subscriptioStartDate ∧
      v'.subscriptionEndDate = v.subscriptionEndDate) := by
  constructor
  · cases P <;> simp [patchUserByOauthPlan, if_pos hP]
  · simp [patchUserByIdPlan, if_pos hQ]

/-- Witness for the amended C2: `basicUser` upgraded to CORE via the
`:oauthId` endpoint (at time 0, with a concrete one-month function), and
`coreUser` downgraded to BASIC via the `:id` endpoint. -/
theorem planChange_resets_and_transitions_witness :
    (∃ u', patchUserByOauthPlan (fun t => t + 2592000000) 0 basicUser
        .CORE = .ok u' ∧
      u'.planType = .CORE ∧
      u'.messagesUsed = 0 ∧ u'.documentsUsed = 0 ∧
      u'.messageLeft = (PLAN_LIMITS_V2 .CORE).messages ∧
      u'.documentLeft = (PLAN_LIMITS_V2 .CORE).documents ∧
      ((PlanType.CORE = .CORE ∨ PlanType.CORE = .ADVANCED ∨
          PlanType.CORE = .PRO) →
        u'.subscriptionStatus = .ACTIVE ∧
        u'.subscriptioStartDate = some 0 ∧
        u'.subscriptionEndDate = some 2592000000) ∧
      (PlanType.CORE = .BASIC →
        u'.subscriptionStatus = .CANCELED ∧
        u'.subscriptioStartDate = none ∧
        u'.subscriptionEndDate = none)) ∧
    (∃ v', patchUserByIdPlan coreUser .BASIC = .ok v' ∧
      v'.planType = .BASIC ∧
      v'.messagesUsed = 0 ∧ v'.documentsUsed = 0 ∧
      v'.messageLeft = (PLAN_LIMITS .BASIC).messages ∧
      v'.documentLeft = (PLAN_LIMITS .BASIC).documents ∧
      v'.subscriptionStatus = coreUser.subscriptionStatus ∧
      v'.subscriptioStartDate = coreUser.subscriptioStartDate ∧
      v'.subscriptionEndDate = coreUser.subscriptionEndDate) :=
  planChange_resets_and_transitions (fun t => t + 2592000000) 0
    basicUser coreUser .CORE .BASIC (by decide) (by decide)

/-- Counterexample for C8: an equal-plan change request (`basicUser` is
BASIC, request carries `planType = BASIC`) on the `:oauthId` endpoint does
not complete successfully — it is rejected with 400
`No valid updates provided`. -/
theorem equalPlan_rejected_cex :
    patchUserByOauthPlan (fun t => t) 0 basicUser .BASIC =
      .error ⟨400, "No valid updates provided"⟩ := rfl

/-- Claim C8 (amended): an equal-plan change request never changes stored
state; on the `:id` endpoint it completes successfully returning the user
unchanged, while on the `:oauthId` endpoint a request carrying only
`planType` is rejected with 400 `No valid updates provided` without any
write. -/
theorem equalPlan_noop (addOneMonth : TimeMs → TimeMs) (now : TimeMs)
    (u : User) :
    patchUserByIdPlan u u.planType = .ok u ∧
    patchUserByOauthPlan addOneMonth now u u.planType =
      .error ⟨400, "No valid updates provided"⟩ := by
  constructor
  · simp [patchUserByIdPlan]
  · simp [patchUserByOauthPlan]

/-! ## Usage-update block of `PATCH /api/v1/users/:oauthId` (lines 1166-1204)

For a request without `planType`, the handler supports boolean
`incrementMessage` / `incrementDocument` flags and absolute
`messagesUsed` / `documentsUsed` values; every newly computed left-counter
goes through `Math.max(0, ...)`, and a `-1` (unlimited) left-counter is
never written. -/

/-- The user resulting from the usage-update block: field by field, exactly
the `updateData` the handler builds from `existingUser` (all reads are
against the pre-state `u`), applied by `prisma.user.update`. -/
def patchUsage (u : User) (incMsg incDoc : Bool)
    (mUsed dUsed : Option Int) : User :=
  { u with
    messagesUsed :=
      if incMsg then u.messagesUsed + 1
      else match mUsed with
        | some m => max 0 m
        | none => u.messagesUsed
    messageLeft :=
      if incMsg then
        (if u.messageLeft ≠ -1 then max 0 (u.messageLeft - 1)
         else u.messageLeft)
      else match mUsed with
        | some m =>
            if u.messageLeft ≠ -1 then
              max 0 (u.messageLeft - (max 0 m - u.messagesUsed))
            else u.messageLeft
        | none => u.messageLeft
    documentsUsed :=
      if incDoc then u.documentsUsed + 1
      else match dUsed with
        | some d => max 0 d
        | none => u.documentsUsed
    documentLeft :=
      if incDoc then
        (if u.documentLeft ≠ -1 then max 0 (u.documentLeft - 1)
         else u.documentLeft)
      else match dUsed with
        | some d =>
            if u.documentLeft ≠ -1 then
              max 0 (u.documentLeft - (max 0 d - u.documentsUsed))
            else u.documentLeft
        | none => u.documentLeft }

/-- Claim C9: for every usage mutation on the `:oauthId` update endpoint —
increment flag or absolute used-value — a mutated resource whose
left-counter is finite (not `-1`) ends with a left-counter `≥ 0`
(the `max(0, ·)` floor), and a `-1` left-counter is left unchanged. -/
theorem patchUsage_floor (u : User) (incMsg incDoc : Bool)
    (mUsed dUsed : Option Int) :
    ((incMsg = true ∨ mUsed ≠ none) → u.messageLeft ≠ -1 →
      0 ≤ (patchUsage u incMsg incDoc mUsed dUsed).messageLeft) ∧
    (u.messageLeft = -1 →
      (patchUsage u incMsg incDoc mUsed dUsed).messageLeft = -1) ∧
    ((incDoc = true ∨ dUsed ≠ none) → u.documentLeft ≠ -1 →
      0 ≤ (patchUsage u incMsg incDoc mUsed dUsed).documentLeft) ∧
    (u.documentLeft = -1 →
      (patchUsage u incMsg incDoc mUsed dUsed).documentLeft = -1) := by
  refine ⟨?_, ?_, ?_, ?_⟩
  · intro htouch hfin
    simp only [patchUsage]
    cases incMsg with
    | true => simp [hfin]
    | false =>
        cases mUsed with
        | none => simp at htouch
        | some m => simp [hfin]
  · intro hunl
    simp only [patchUsage]
    cases incMsg with
    | true => simp [hunl]
    | false =>
        cases mUsed with
        | none => simpa using hunl
        | some m => simp [hunl]
  · intro htouch hfin
    simp only [patchUsage]
    cases incDoc with
    | true => simp [hfin]
    | false =>
        cases dUsed with
        | none => simp at htouch
        | some d => simp [hfin]
  · intro hunl
    simp only [patchUsage]
    cases incDoc with
    | true => simp [hunl]
    | false =>
        cases dUsed with
        | none => simpa using hunl
        | some d => simp [hunl]

/-- Concrete PRO user (earlier-revision limits: both counters unlimited)
used in the C9 witness. -/
def proUser : User :=
  { id := "u-3", email := "e@f.com", oauthId := "oauth-3",
    username := some "e", subscriptioStartDate := some 0,
    subscriptionEndDate := some 2592000000, subscriptionStatus := .ACTIVE,
    planType := .PRO, messagesUsed := 7, documentsUsed := 2,
    messageLeft := -1, documentLeft := -1 }

/-- Witness for C9: an absolute `messagesUsed := 50` write on `coreUser`
(finite `messageLeft = 5`) floors the left-counter at 0, and the same
mutation on `proUser` leaves its `-1` counters untouched. -/
theorem patchUsage_floor_witness :
    0 ≤ (patchUsage coreUser false false (some 50) none).messageLeft ∧
    (patchUsage proUser false false (some 50) none).messageLeft = -1 := by
  constructor
  · exact (patchUsage_floor coreUser false false (some 50) none).1
      (Or.inr (by decide)) (by decide)
  · exact (patchUsage_floor proUser false false (some 50) none).2.1 rfl

/-! ## Stats endpoint (`GET /api/v1/users/:id/stats`, lines 653-702) -/

/-- A stats figure: either the string `'unlimited'` or a number. -/
inductive StatValue
  | unlimited
  | num (n : Int)
  deriving DecidableEq, Repr

/-- `Math.ceil(a / b)` for integer `a` and positive integer `b` (the JS
division is exact real division before the ceiling). -/
def ceilDiv (a b : Int) : Int := -((-a).fdiv b)

/-- The `data` payload computed by the stats handler. -/
structure UserStats where
  messagesUsed : Int
  messagesRemaining : StatValue
  messagesTotal : StatValue
  documentsUsed : Int
  documentsRemaining : StatValue
  documentsTotal : StatValue
  daysRemaining : Option Int
  deriving DecidableEq, Repr

/-- The `GET /api/v1/users/:id/stats` handler's stats object for an
existing user, at current time `now`. -/
def userStats (u : User) (now : TimeMs) : UserStats :=
  { messagesUsed := u.messagesUsed
    messagesRemaining :=
      if u.messageLeft = -1 then .unlimited else .num u.messageLeft
    messagesTotal :=
      if u.messageLeft = -1 then .unlimited
      else .num (u.messagesUsed + u.messageLeft)
    documentsUsed := u.documentsUsed
    documentsRemaining :=
      if u.documentLeft = -1 then .unlimited else .num u.documentLeft
    documentsTotal :=
      if u.documentLeft = -1 then .unlimited
      else .num (u.documentsUsed + u.documentLeft)
    daysRemaining :=
      match u.subscriptionEndDate with
      | some e => some (ceilDiv (e - now) 86400000)
      | none => none }

/-- Claim C10: the stats endpoint reports `remaining`/`total` for a
resource as `'unlimited'` exactly when the left-counter is `-1`, and
otherwise `remaining = left`, `total = used + left`; `daysRemaining` is
`ceil((subscriptionEndDate - now) / 1 day)` when the end date is non-null,
and null otherwise. -/
theorem userStats_spec (u : User) (now : TimeMs) :
    ((userStats u now).messagesRemaining = .unlimited ↔
      u.messageLeft = -1) ∧
    ((userStats u now).messagesTotal = .unlimited ↔ u.messageLeft = -1) ∧
    (u.messageLeft ≠ -1 →
      (userStats u now).messagesRemaining = .num u.messageLeft ∧
      (userStats u now).messagesTotal =
        .num (u.messagesUsed + u.messageLeft)) ∧
    ((userStats u now).documentsRemaining = .unlimited ↔
      u.documentLeft = -1) ∧
    ((userStats u now).documentsTotal = .unlimited ↔ u.documentLeft = -1) ∧
    (u.documentLeft ≠ -1 →
      (userStats u now).documentsRemaining = .num u.documentLeft ∧
      (userStats u now).documentsTotal =
        .num (u.documentsUsed + u.documentLeft)) ∧
    (∀ e, u.subscriptionEndDate = some e →
      (userStats u now).daysRemaining =
        some (ceilDiv (e - now) 86400000)) ∧
    (u.subscriptionEndDate = none →
      (userStats u now).daysRemaining = none) := by
  refine ⟨?_, ?_, ?_, ?_, ?_, ?_, ?_, ?_⟩
  · by_cases h : u.messageLeft = -1 <;> simp [userStats, h]
  · by_cases h : u.messageLeft = -1 <;> simp [userStats, h]
  · intro h; exact ⟨by simp [userStats, h], by simp [userStats, h]⟩
  · by_cases h : u.documentLeft = -1 <;> simp [userStats, h]
  · by_cases h : u.documentLeft = -1 <;> simp [userStats, h]
  · intro h; exact ⟨by simp [userStats, h], by simp [userStats, h]⟩
  · intro e he; simp [userStats, he]
  · intro he; simp [userStats, he]

/-- Witness for C10: `proUser` (unlimited messages, end date one 30-day
month away) reports `'unlimited'` remaining messages and 30 days left at
time 0, while `coreUser` (no end date) reports finite figures and a null
`daysRemaining`. -/
theorem userStats_spec_witness :
    (userStats proUser 0).messagesRemaining = .unlimited ∧
    (userStats proUser 0).daysRemaining = some 30 ∧
    (userStats coreUser 0).messagesRemaining = .num 5 ∧
    (userStats coreUser 0).messagesTotal = .num 100 ∧
    (userStats coreUser 0).daysRemaining = none := by
  refine ⟨?_, ?_, ?_, ?_, ?_⟩
  · exact (userStats_spec proUser 0).1.mpr rfl
  · have h := (userStats_spec proUser 0).2.2.2.2.2.2.1 2592000000 rfl
    rw [h]; rfl
  · exact ((userStats_spec coreUser 0).2.2.1 (by decide)).1
  · have h := ((userStats_spec coreUser 0).2.2.1 (by decide)).2
    rw [h]; rfl
  · exact (userStats_spec coreUser 0).2.2.2.2.2.2.2 rfl

/-! ## Scheduled reconciliation jobs (`routes/index.ts`)

The monthly job (`cron.schedule('0 0 1 * *')`, lines 182-232) first
downgrades every user whose `subscriptionEndDate` is strictly before `now`
and whose status is not CANCELED, then resets limits for every user whose
status is ACTIVE after that first pass.  The daily job
(`cron.schedule('0 0 * * *')`, lines 235-267) flags ACTIVE users whose end
date lies in `[now, now + 3 days]` as PAST_DUE.  Both jobs are identical in
the two router revisions up to the plan-limit table, so they are
parameterized by it. -/

/-- The monthly job's expiry query predicate:
`subscriptionEndDate < now` (Prisma `lt` never matches a null date) and
`subscriptionStatus != CANCELED`. -/
def isExpired (now : TimeMs) (u : User) : Bool :=
  (match u.subscriptionEndDate with
   | some d => decide (d < now)
   | none => false) &&
  decide (u.subscriptionStatus ≠ SubscriptionStatus.CANCELED)

/-- The downgrade the monthly job writes for an expired user
(lines 202-214). -/
def expiredDowngrade (limits : PlanType → PlanLimits) (u : User) : User :=
  { u with
    planType := .BASIC
    subscriptionStatus := .UNPAID
    subscriptionEndDate := none
    subscriptioStartDate := none
    messageLeft := (limits .BASIC).messages
    documentLeft := (limits .BASIC).documents
    messagesUsed := 0
    documentsUsed := 0 }

/-- `resetUserLimits` (lines 168-179): refresh quota from the user's
current plan and zero the used-counters. -/
def resetUserLimits (limits : PlanType → PlanLimits) (u : User) : User :=
  { u with
    messageLeft := (limits u.planType).messages
    documentLeft := (limits u.planType).documents
    messagesUsed := 0
    documentsUsed := 0 }

/-- One run of the monthly job over the store: the expiry pass completes
all of its updates before the active-user query of the reset pass runs. -/
def monthlyJob (limits : PlanType → PlanLimits) (now : TimeMs)
    (s : Store) : Store :=
  let afterExpiry :=
    s.map (fun u => if isExpired now u then expiredDowngrade limits u else u)
  afterExpiry.map (fun u =>
    if u.subscriptionStatus = SubscriptionStatus.ACTIVE then
      resetUserLimits limits u
    else u)

/-- The daily job's query predicate: status ACTIVE and
`now ≤ subscriptionEndDate ≤ now + 3 * 24 * 60 * 60 * 1000` (Prisma
`gte`/`lte` never match a null date). -/
def expiresSoon (now : TimeMs) (u : User) : Bool :=
  (match u.subscriptionEndDate with
   | some d => decide (now ≤ d) && decide (d ≤ now + 3 * 24 * 60 * 60 * 1000)
   | none => false) &&
  decide (u.subscriptionStatus = SubscriptionStatus.ACTIVE)

/-- One run of the daily job over the store: flag the matching users
PAST_DUE and write nothing else. -/
def dailyJob (now : TimeMs) (s : Store) : Store :=
  s.map (fun u =>
    if expiresSoon now u then
      { u with subscriptionStatus := .PAST_DUE }
    else u)

/-- Paid ACTIVE user whose subscription already ended, showing the expiry
predicate does not force a downgraded record by itself. -/
def activeExpiredAt (now : TimeMs) : User :=
  { id := "w-1", email := "w@w.com", oauthId := "oauth-w",
    username := none, subscriptioStartDate := some (now - 2),
    subscriptionEndDate := some (now - 1),
    subscriptionStatus := .ACTIVE, planType := .PRO,
    messagesUsed := 0, documentsUsed := 0,
    messageLeft := -1, documentLeft := -1 }

/-- Claim C4: after one monthly-job run, the user at any index whose
stored record had an end date strictly in the past and a status other than
CANCELED is downgraded: BASIC plan, UNPAID status, both dates null, the
BASIC ceilings from the job's plan table, and zeroed used-counters.  The
final conjunct shows nothing forces the downgrade before the job runs: a
stored record can satisfy the expiry predicate while still on a paid plan
with ACTIVE status. -/
theorem monthlyJob_downgrades_expired (limits : PlanType → PlanLimits)
    (now : TimeMs) (s : Store) (i : Nat) (u : User)
    (hu : s[i]? = some u) (hexp : isExpired now u = true) :
    (∃ v, (monthlyJob limits now s)[i]? = some v ∧
      v.planType = .BASIC ∧
      v.subscriptionStatus = .UNPAID ∧
      v.subscriptioStartDate = none ∧
      v.subscriptionEndDate = none ∧
      v.messageLeft = (limits .BASIC).messages ∧
      v.documentLeft = (limits .BASIC).documents ∧
      v.messagesUsed = 0 ∧
      v.documentsUsed = 0) ∧
    (∃ w : User, isExpired now w = true ∧
      w.planType ≠ .BASIC ∧ w.subscriptionStatus = .ACTIVE) := by
  constructor
  · refine ⟨expiredDowngrade limits u, ?_, rfl, rfl, rfl, rfl, rfl, rfl,
      rfl, rfl⟩
    simp [monthlyJob, List.getElem?_map, hu, Option.map_some', hexp,
      expiredDowngrade]
  · refine ⟨activeExpiredAt now, ?_, ?_, rfl⟩
    · have h1 : now - 1 < now := sub_one_lt now
      simp [isExpired, activeExpiredAt, h1]
    · simp [activeExpiredAt]

/-- Expired ADVANCED user for the C4 witness. -/
def expiredUser : User :=
  { id := "u-4", email := "g@h.com", oauthId := "oauth-4",
    username := none, subscriptioStartDate := some 0,
    subscriptionEndDate := some 100, subscriptionStatus := .PAST_DUE,
    planType := .ADVANCED, messagesUsed := 42, documentsUsed := 3,
    messageLeft := 458, documentLeft := 47 }

/-- Witness for C4: running the monthly job at time 200 over a store
holding `expiredUser` (end date 100, status PAST_DUE) yields the full
BASIC/UNPAID downgrade at index 0. -/
theorem monthlyJob_downgrades_expired_witness :
    (∃ v, (monthlyJob PLAN_LIMITS 200 [expiredUser])[0]? = some v ∧
      v.planType = .BASIC ∧
      v.subscriptionStatus = .UNPAID ∧
      v.subscriptioStartDate = none ∧
      v.subscriptionEndDate = none ∧
      v.messageLeft = (PLAN_LIMITS .BASIC).messages ∧
      v.documentLeft = (PLAN_LIMITS .BASIC).documents ∧
      v.messagesUsed = 0 ∧
      v.documentsUsed = 0) ∧
    (∃ w : User, isExpired 200 w = true ∧
      w.planType ≠ .BASIC ∧ w.subscriptionStatus = .ACTIVE) :=
  monthlyJob_downgrades_expired PLAN_LIMITS 200 [expiredUser] 0
    expiredUser rfl (by decide)

/-- Claim C5: one daily-job run flags PAST_DUE exactly the users with
status ACTIVE and an end date in `[now, now + 3 days]`: such a user's
record changes only in `subscriptionStatus`, and any user outside that
window (wrong status, no end date, or an end date outside the interval)
is returned completely unchanged. -/
theorem dailyJob_past_due_window (now : TimeMs) (s : Store) (i : Nat)
    (u : User) (hu : s[i]? = some u) :
    ((u.subscriptionStatus = .ACTIVE ∧ ∃ d, u.subscriptionEndDate = some d ∧
        now ≤ d ∧ d ≤ now + 3 * 24 * 60 * 60 * 1000) →
      (dailyJob now s)[i]? =
        some { u with subscriptionStatus := .PAST_DUE }) ∧
    (¬ (u.subscriptionStatus = .ACTIVE ∧
        ∃ d, u.subscriptionEndDate = some d ∧
          now ≤ d ∧ d ≤ now + 3 * 24 * 60 * 60 * 1000) →
      (dailyJob now s)[i]? = some u) := by
  have hbool : expiresSoon now u = true ↔
      (u.subscriptionStatus = .ACTIVE ∧
        ∃ d, u.subscriptionEndDate = some d ∧
          now ≤ d ∧ d ≤ now + 3 * 24 * 60 * 60 * 1000) := by
    unfold expiresSoon
    cases hE : u.subscriptionEndDate with
    | none => simp [hE]
    | some d =>
        simp only [hE, Bool.and_eq_true, decide_eq_true_eq]
        constructor
        · rintro ⟨⟨h1, h2⟩, h3⟩
          exact ⟨h3, d, rfl, h1, h2⟩
        · rintro ⟨h3, d', hd', h1, h2⟩
          cases hd'
          exact ⟨⟨h1, h2⟩, h3⟩
  constructor
  · intro hwin
    have hsoon : expiresSoon now u = true := hbool.mpr hwin
    simp [dailyJob, List.getElem?_map, hu, Option.map_some', hsoon]
  · intro hwin
    have hsoon : expiresSoon now u = false := by
      cases h : expiresSoon now u with
      | false => rfl
      | true => exact absurd (hbool.mp h) hwin
    simp [dailyJob, List.getElem?_map, hu, Option.map_some', hsoon]

/-- ACTIVE user whose subscription ends two days from time 0, for the C5
witness. -/
def endingSoonUser : User :=
  { id := "u-5", email := "i@j.com", oauthId := "oauth-5",
    username := none, subscriptioStartDate := some (-100),
    subscriptionEndDate := some 172800000, subscriptionStatus := .ACTIVE,
    planType := .CORE, messagesUsed := 1, documentsUsed := 1,
    messageLeft := 99, documentLeft := 9 }

/-- Witness for C5: in a two-user store, the daily job at time 0 flags
`endingSoonUser` (end date two days out) PAST_DUE changing nothing else,
and leaves `coreUser` (no end date) untouched. -/
theorem dailyJob_past_due_window_witness :
    (dailyJob 0 [endingSoonUser, coreUser])[0]? =
      some { endingSoonUser with subscriptionStatus := .PAST_DUE } ∧
    (dailyJob 0 [endingSoonUser, coreUser])[1]? = some coreUser := by
  constructor
  · exact (dailyJob_past_due_window 0 [endingSoonUser, coreUser] 0
      endingSoonUser rfl).1 ⟨rfl, 172800000, rfl, by decide, by decide⟩
  · refine (dailyJob_past_due_window 0 [endingSoonUser, coreUser] 1
      coreUser rfl).2 ?_
    rintro ⟨-, d, hd, -, -⟩
    cases hd

/-! ## Clerk user webhook (`src/webhooks/clerkUserWebhook.ts`, embedded at
`routes/index.ts` lines 1340-1544) together with the Prisma uniqueness
constraints of `model User` (`@id id`, `@unique email`, `@unique oauthId`). -/

/-- Prisma error codes surfaced by the handlers. -/
inductive PrismaError
  | P2002
  | P2025
  deriving DecidableEq, Repr

/-- `prisma.user.create`: rejects with `P2002` when any stored row collides
with the new row on a unique column, otherwise appends the row. -/
def prismaCreateUser (s : Store) (u : User) : Except PrismaError Store :=
  if s.any (fun v =>
      v.id = u.id || v.email = u.email || v.oauthId = u.oauthId) then
    .error .P2002
  else
    .ok (s ++ [u])

/-- The three Svix verification headers of an inbound webhook request. -/
structure SvixHeaders where
  svixId : Option String
  svixTimestamp : Option String
  svixSignature : Option String
  deriving DecidableEq, Repr

/-- JS falsiness of a header value: absent (`undefined`) or empty. -/
def falsyHeader : Option String → Bool
  | none => true
  | some h => h = ""

/-- One entry of the Clerk payload's `email_addresses` array. -/
structure ClerkEmail where
  id : String
  email_address : String
  deriving DecidableEq, Repr

/-- The fields of Clerk's `event.data` that the handlers read. -/
structure ClerkUserData where
  id : String
  email_addresses : List ClerkEmail
  primary_email_address_id : String
  username : Option String
  deriving DecidableEq, Repr

/-- A verified webhook event, discriminated on `event.type`. -/
inductive ClerkEvent
  | userCreated (d : ClerkUserData)
  | userUpdated (d : ClerkUserData)
  | userDeleted (d : ClerkUserData)
  | otherUserEvent (t : String) (d : ClerkUserData)
  | nonUserEvent (t : String)
  deriving Repr

/-- `email_address.split('@')[0]`: the local part used as default
username. -/
def localPart (email : String) : String := (email.splitOn "@").headD ""

/-- `userData.username || primaryEmail.email_address.split('@')[0]` — a
null or empty username falls back to the email's local part. -/
def clerkUsername (d : ClerkUserData) (p : ClerkEmail) : String :=
  match d.username with
  | some u => if u = "" then localPart p.email_address else u
  | none => localPart p.email_address

/-- The row `handleUserCreated` asks Prisma to create: explicit `oauthId`,
`email`, `username`; every other column takes its schema default. -/
def clerkNewUser (freshId : String) (d : ClerkUserData) (p : ClerkEmail) :
    User :=
  { id := freshId, email := p.email_address, oauthId := d.id,
    username := some (clerkUsername d p), subscriptioStartDate := none,
    subscriptionEndDate := none, subscriptionStatus := .UNPAID,
    planType := .BASIC, messagesUsed := 0, documentsUsed := 0,
    messageLeft := 20, documentLeft := 0 }

/-- `handleUserCreated` (lines 1454-1485): resolve the primary email
(silently succeeding without a write when it is missing), create the row,
and rethrow any Prisma error. -/
def handleUserCreated (freshId : String) (d : ClerkUserData) (s : Store) :
    Except PrismaError Store :=
  match d.email_addresses.find?
      (fun e => e.id = d.primary_email_address_id) with
  | none => .ok s
  | some p => prismaCreateUser s (clerkNewUser freshId d p)

/-- `handleUserUpdated` (lines 1490-1521): update email/username of the
row matched by `oauthId`; a missing row is Prisma's `P2025`, rethrown. -/
def handleUserUpdated (d : ClerkUserData) (s : Store) :
    Except PrismaError Store :=
  match d.email_addresses.find?
      (fun e => e.id = d.primary_email_address_id) with
  | none => .ok s
  | some p =>
      if s.any (fun u => u.oauthId = d.id) then
        .ok (s.map (fun u =>
          if u.oauthId = d.id then
            { u with email := p.email_address,
                     username := some (clerkUsername d p) }
          else u))
      else .error .P2025

/-- `handleUserDeleted` (lines 1526-1542): delete the row matched by
`oauthId`; a missing row is Prisma's `P2025`, rethrown. -/
def handleUserDeleted (d : ClerkUserData) (s : Store) :
    Except PrismaError Store :=
  if s.any (fun u => u.oauthId = d.id) then
    .ok (s.filter (fun u => u.oauthId ≠ d.id))
  else .error .P2025

/-- Outcome of one webhook delivery: the HTTP status sent (none when the
request was passed to the next handler), the resulting store, and whether
`next()` was called. -/
structure WebhookResult where
  status : Option Nat
  store : Store
  calledNext : Bool
  deriving Repr

/-- `handleUserWebhook` (lines 1349-1449): missing secret → 500; a falsy
Svix header → 400; failed signature verification (`verifies = false`) →
400; then dispatch on the event type, with handler errors caught as 500
and non-user events passed to `next()`.  `freshId` is the UUID Prisma
would generate for a created row. -/
def handleUserWebhookRun (secret : Option String) (headers : SvixHeaders)
    (verifies : Bool) (event : ClerkEvent) (freshId : String) (s : Store) :
    WebhookResult :=
  match secret with
  | none => ⟨some 500, s, false⟩
  | some _ =>
    if falsyHeader headers.svixId || falsyHeader headers.svixTimestamp ||
        falsyHeader headers.svixSignature then
      ⟨some 400, s, false⟩
    else if !verifies then
      ⟨some 400, s, false⟩
    else
      match event with
      | .userCreated d =>
          match handleUserCreated freshId d s with
          | .ok s' => ⟨some 200, s', false⟩
          | .error _ => ⟨some 500, s, false⟩
      | .userUpdated d =>
          match handleUserUpdated d s with
          | .ok s' => ⟨some 200, s', false⟩
          | .error _ => ⟨some 500, s, false⟩
      | .userDeleted d =>
          match handleUserDeleted d s with
          | .ok s' => ⟨some 200, s', false⟩
          | .error _ => ⟨some 500, s, false⟩
      | .otherUserEvent _ _ => ⟨some 200, s, false⟩
      | .nonUserEvent _ => ⟨none, s, true⟩

/-- Number of stored rows carrying a given external identifier. -/
def countOauth (s : Store) (oid : String) : Nat :=
  s.countP (fun u => u.oauthId = oid)

/-- Claim C6: with the shared secret configured, a webhook request with a
missing (or empty, hence falsy) Svix header, or one whose signature check
fails, is answered 400 and dispatches nothing: the store is returned
unchanged and the request is not forwarded. -/
theorem webhook_auth_short_circuit (sec : String) (headers : SvixHeaders)
    (verifies : Bool) (event : ClerkEvent) (freshId : String) (s : Store)
    (h : falsyHeader headers.svixId = true ∨
      falsyHeader headers.svixTimestamp = true ∨
      falsyHeader headers.svixSignature = true ∨
      verifies = false) :
    (handleUserWebhookRun (some sec) headers verifies event freshId
        s).status = some 400 ∧
    (handleUserWebhookRun (some sec) headers verifies event freshId
        s).store = s ∧
    (handleUserWebhookRun (some sec) headers verifies event freshId
        s).calledNext = false := by
  cases hh : (falsyHeader headers.svixId ||
      falsyHeader headers.svixTimestamp ||
      falsyHeader headers.svixSignature) with
  | true =>
      simp [handleUserWebhookRun, hh]
  | false =>
      have hv : verifies = false := by
        rcases h with h1 | h1 | h1 | h1
        · rw [h1] at hh; simp at hh
        · rw [h1] at hh; simp at hh
        · rw [h1] at hh; simp at hh
        · exact h1
      simp [handleUserWebhookRun, hh, hv]

/-- Witness for C6: a request with all three headers present but a failing
signature check, against a one-user store, gets 400 with the store
intact. -/
theorem webhook_auth_short_circuit_witness :
    (handleUserWebhookRun (some "whsec") ⟨some "i", some "t", some "g"⟩
        false (.nonUserEvent "session.created") "fresh" [coreUser]).status =
      some 400 ∧
    (handleUserWebhookRun (some "whsec") ⟨some "i", some "t", some "g"⟩
        false (.nonUserEvent "session.created") "fresh" [coreUser]).store =
      [coreUser] ∧
    (handleUserWebhookRun (some "whsec") ⟨some "i", some "t", some "g"⟩
        false (.nonUserEvent "session.created") "fresh"
        [coreUser]).calledNext = false :=
  webhook_auth_short_circuit "whsec" ⟨some "i", some "t", some "g"⟩
    false (.nonUserEvent "session.created") "fresh" [coreUser]
    (Or.inr (Or.inr (Or.inr rfl)))

/-- Claim C7: delivering the same verified `user.created` event twice never
produces two rows with the same `oauthId`.  Starting from a store with no
row colliding with the new user on a unique column, the first delivery
creates the row — the count of rows with the event's external identifier
becomes 1 — and the replayed delivery is stopped by the `@unique oauthId`
constraint (`P2002`, surfaced as a 500): the store is returned unchanged
and the count stays 1. -/
theorem webhook_create_idempotent (sec : String) (headers : SvixHeaders)
    (d : ClerkUserData) (p : ClerkEmail) (freshId1 freshId2 : String)
    (s : Store)
    (hid : falsyHeader headers.svixId = false)
    (hts : falsyHeader headers.svixTimestamp = false)
    (hsig : falsyHeader headers.svixSignature = false)
    (hp : d.email_addresses.find?
      (fun e => e.id = d.primary_email_address_id) = some p)
    (hfresh : s.any (fun v => v.id = freshId1 ||
      v.email = p.email_address || v.oauthId = d.id) = false) :
    countOauth (handleUserWebhookRun (some sec) headers true
      (.userCreated d) freshId1 s).store d.id = 1 ∧
    (handleUserWebhookRun (some sec) headers true (.userCreated d)
        freshId2
        (handleUserWebhookRun (some sec) headers true (.userCreated d)
          freshId1 s).store).store =
      (handleUserWebhookRun (some sec) headers true (.userCreated d)
        freshId1 s).store ∧
    countOauth (handleUserWebhookRun (some sec) headers true
      (.userCreated d) freshId2
      (handleUserWebhookRun (some sec) headers true (.userCreated d)
        freshId1 s).store).store d.id = 1 := by
  have hs1 : (handleUserWebhookRun (some sec) headers true
      (.userCreated d) freshId1 s).store =
      s ++ [clerkNewUser freshId1 d p] := by
    simp [handleUserWebhookRun, hid, hts, hsig, handleUserCreated, hp,
      prismaCreateUser, clerkNewUser, hfresh]
  have hcount0 : countOauth s d.id = 0 := by
    rw [countOauth, List.countP_eq_zero]
    intro v hv
    have hv' := (List.any_eq_false.mp hfresh) v hv
    simp only [Bool.or_eq_true, decide_eq_true_eq, not_or] at hv'
    simpa using hv'.2
  have hcount1 : countOauth (s ++ [clerkNewUser freshId1 d p]) d.id = 1 := by
    rw [countOauth, List.countP_append]
    rw [countOauth] at hcount0
    simp [hcount0, List.countP_cons, clerkNewUser]
  have hany : (s ++ [clerkNewUser freshId1 d p]).any
      (fun v => v.id = freshId2 || v.email = p.email_address ||
        v.oauthId = d.id) = true := by
    apply List.any_eq_true.mpr
    refine ⟨clerkNewUser freshId1 d p, ?_, ?_⟩
    · simp
    · simp [clerkNewUser]
  have hs2 : (handleUserWebhookRun (some sec) headers true
      (.userCreated d) freshId2 (s ++ [clerkNewUser freshId1 d p])).store =
      s ++ [clerkNewUser freshId1 d p] := by
    simp [handleUserWebhookRun, hid, hts, hsig, handleUserCreated, hp,
      prismaCreateUser, clerkNewUser, hany]
  refine ⟨?_, ?_, ?_⟩
  · rw [hs1]; exact hcount1
  · rw [hs1, hs2]
  · rw [hs1, hs2]; exact hcount1

/-- Concrete `user.created` payload for the C7 witness. -/
def webhookPayload : ClerkUserData :=
  { id := "oauth-9", email_addresses := [⟨"em-1", "x@y.com"⟩],
    primary_email_address_id := "em-1", username := none }

/-- Witness for C7: delivering `webhookPayload` twice to an initially
empty store leaves exactly one row with `oauthId = "oauth-9"`, and the
second delivery does not change the store. -/
theorem webhook_create_idempotent_witness :
    countOauth (handleUserWebhookRun (some "whsec")
      ⟨some "i", some "t", some "g"⟩ true (.userCreated webhookPayload)
      "f1" []).store "oauth-9" = 1 ∧
    (handleUserWebhookRun (some "whsec") ⟨some "i", some "t", some "g"⟩
        true (.userCreated webhookPayload) "f2"
        (handleUserWebhookRun (some "whsec") ⟨some "i", some "t", some "g"⟩
          true (.userCreated webhookPayload) "f1" []).store).store =
      (handleUserWebhookRun (some "whsec") ⟨some "i", some "t", some "g"⟩
        true (.userCreated webhookPayload) "f1" []).store ∧
    countOauth (handleUserWebhookRun (some "whsec")
      ⟨some "i", some "t", some "g"⟩ true (.userCreated webhookPayload)
      "f2"
      (handleUserWebhookRun (some "whsec") ⟨some "i", some "t", some "g"⟩
        true (.userCreated webhookPayload) "f1" []).store).store
      "oauth-9" = 1 :=
  webhook_create_idempotent "whsec" ⟨some "i", some "t", some "g"⟩
    webhookPayload ⟨"em-1", "x@y.com"⟩ "f1" "f2" [] rfl rfl rfl rfl rfl
